import Mathlib

/-!
Shallow embedding of `src/read_fpod.cpp`, a binary-format decoder for
CPOD/FPOD click-detector recordings, together with proofs about its
decoding behaviour.  Data blocks are modelled as lists of natural
numbers (byte values); the read loops of `getFPODData` and
`getCPODData` are modelled as folds / structural recursion over the
list of full fixed-size blocks delivered by the file reader (a short
final read terminates the C++ loops before any decoding, so it simply
does not contribute a block here).
-/

namespace ReadFPOD

/-- Byte access `buf[i]` into a fixed-size data block
(`std::vector<uint8_t>`); every access performed by the decoder is
within the block's fixed size. -/
def byteAt (buf : List Nat) (i : Nat) : Nat := buf.getD i 0

/-- `constructInt<T>` from the source: big-endian accumulation
(`res <<= 8; res |= buf[offset+i]`) guarded by the strict bounds check
`offset + size < buf.size()`.  `w` is the bit width of the integer
type `T`; each step is reduced modulo `2 ^ w` as the C++ shift
truncates to the width of `T`. -/
def constructInt (w : Nat) (buf : List Nat) (offset size : Nat) : Nat :=
  if offset + size < buf.length then
    (List.range size).foldl
      (fun res i => ((res <<< 8) % 2 ^ w) ||| (byteAt buf (offset + i) % 2 ^ w)) 0
  else 0

/-- `eof` from the source: a block counts as a terminator when at least
`buf.size() - 5` of its bytes equal 255. -/
def eofBlock (buf : List Nat) : Bool := decide (buf.length - 5 ≤ buf.count 255)

/-- The static `cpod_codes` table of `getSpeciesFromCode`. -/
def cpodCodes (code : Nat) : String :=
  match code with
  | 0 => "NBHF"
  | 1 => "NBHF"
  | 2 => "OtherCet"
  | 3 => "OtherCet"
  | 4 => "Unclassed"
  | 5 => "Unclassed"
  | 6 => "Sonar"
  | 7 => "Sonar"
  | _ => ""

/-- The static `fpod_codes` table of `getSpeciesFromCode`. -/
def fpodCodes (code : Nat) : String :=
  match code with
  | 0 => "NBHF"
  | 1 => "OtherCet"
  | 2 => "Unclassed"
  | 3 => "Sonar"
  | _ => ""

/-- `getSpeciesFromCode` from the source: table lookup guarded by the
extension and the valid code range, empty label otherwise. -/
def getSpeciesFromCode (code : Nat) (ext : String) : String :=
  if ext = "CP3" ∧ code ≤ 7 then cpodCodes code
  else if ext = "FP3" ∧ code ≤ 3 then fpodCodes code
  else ""

/-- `WavDataChunk`: the 7 (IPI, SPL) sample pairs of one waveform
record, as two parallel vectors. -/
structure WavDataChunk where
  IPI : List Nat
  SPL : List Nat
deriving DecidableEq, Repr

/-- `WavData`: the waveform series of one click (keyed by 1-based click
number), chunks in insertion order. -/
structure WavData where
  click : Int
  chunks : List WavDataChunk
deriving DecidableEq, Repr

/-- The 7 output rows `(click_no, IPI[j], SPL[j])`, `j = 0..6`, that
`wavToList` emits for one chunk, in the chunk's internal order. -/
def chunkRows (click : Int) (c : WavDataChunk) : List (Int × Nat × Nat) :=
  (List.range 7).map fun j => (click, c.IPI.getD j 0, c.SPL.getD j 0)

/-- `wavToList` from the source, as the sequence of emitted rows: for
each `WavData` entry, its chunks are traversed with reverse iterators
(`rbegin()..rend()`, i.e. in reverse insertion order), 7 rows per
chunk. -/
def wavToList (wav_data : List WavData) : List (Int × Nat × Nat) :=
  (wav_data.map fun wav => ((wav.chunks.reverse).map (chunkRows wav.click)).flatten).flatten

/-- Pointwise update of a decoder output column (`vec[i] = v`). -/
def upd {α : Type} (f : Int → α) (i : Int) (v : α) : Int → α :=
  fun j => if j = i then v else f j

/-- Apply `f` to the last element of a list (`container.back()` being
modified in place); the decoder only does this on nonempty lists. -/
def updateLast {α : Type} (f : α → α) : List α → List α
  | [] => []
  | [x] => [f x]
  | x :: xs => x :: updateLast f xs

/-- The waveform extraction loop of `getFPODData`
(`for (pos = 12; pos >= 0; pos -= 2)`): push `buf[pos+1]` onto IPI and
`buf[pos+2]` onto SPL. -/
def wavChunkOf (buf : List Nat) : WavDataChunk :=
  [12, 10, 8, 6, 4, 2, 0].foldl
    (fun c pos =>
      { c with
        IPI := c.IPI ++ [byteAt buf (pos + 1)]
        SPL := c.SPL ++ [byteAt buf (pos + 2)] })
    ⟨[], []⟩

/-- Microsecond offset of a click: the source computes
`constructInt<uint32_t>(buf,0,3) / 200.0 * 1000.0` in double precision
and truncates to `int`; the exact real value of that expression is the
integer `u * 1000 / 200 = u * 5`, which is what we record (no claim
depends on double rounding). -/
def microsecOf (buf : List Nat) : Int :=
  (constructInt 32 buf 0 3 : Int) * 1000 / 200

/-- The output columns of `FPODData` (Rcpp vectors are zero/empty
initialised on construction), plus the accumulated waveform and
environmental data. -/
structure FPODData where
  min : Int → Int := fun _ => 0
  microsec : Int → Int := fun _ => 0
  ncyc : Int → Nat := fun _ => 0
  pkat : Int → Nat := fun _ => 0
  clk_ipi_range : Int → Nat := fun _ => 0
  ipi_pre_max : Int → Nat := fun _ => 0
  ipi_at_max : Int → Nat := fun _ => 0
  khz : Int → Nat := fun _ => 0
  amp_at_max : Int → Nat := fun _ => 0
  amp_reversals : Int → Nat := fun _ => 0
  duration : Int → ℚ := fun _ => 0
  has_wav : Int → Bool := fun _ => false
  train_id : Int → Nat := fun _ => 0
  species : Int → String := fun _ => ""
  quality_level : Int → Nat := fun _ => 0
  echo : Int → Bool := fun _ => false
  wav_data : List WavData := []
  temp_deg_c : List Nat := []
  bat1 : List Nat := []
  bat2 : List Nat := []

/-- Loop state of `getFPODData`: the accumulating `dat` plus the local
counters `current_click` and `current_min`, both starting at -1. -/
structure FPODLoop where
  dat : FPODData := {}
  current_click : Int := -1
  current_min : Int := -1

/-- Initial FPOD loop state (fresh `FPODData`, counters at -1). -/
def initFPOD : FPODLoop := {}

/-- The `buf[0] < 184` branch of `getFPODData`: decode a click record
at index `current_click + 1`. -/
def fpodClick (st : FPODLoop) (buf : List Nat) : FPODLoop :=
  let b := byteAt buf
  let cc := st.current_click + 1
  { st with
    current_click := cc
    dat := { st.dat with
      min := upd st.dat.min cc st.current_min
      microsec := upd st.dat.microsec cc (microsecOf buf)
      ncyc := upd st.dat.ncyc cc (b 3)
      pkat := upd st.dat.pkat cc ((b 4 &&& 240) >>> 4)
      clk_ipi_range := upd st.dat.clk_ipi_range cc
        (if b 4 &&& 15 = 15 then 65
         else if b 4 &&& 8 = 8 then ((b 4 &&& 7) + 1) <<< 3
         else b 4 &&& 7)
      ipi_pre_max := upd st.dat.ipi_pre_max cc (b 5 + 1)
      ipi_at_max := upd st.dat.ipi_at_max cc (b 6 + 1)
      amp_at_max := upd st.dat.amp_at_max cc (max 2 (b 10))
      amp_reversals := upd st.dat.amp_reversals cc (b 13 &&& 15)
      duration := upd st.dat.duration cc (((b 13 &&& 240) * 16 + b 14) / 5 : ℕ) } }

/-- The `buf[0] == 249` branch of `getFPODData`: train metadata for the
next click, written at index `current_click + 1`. -/
def fpodTrain (ext : String) (st : FPODLoop) (buf : List Nat) : FPODLoop :=
  let b := byteAt buf
  { st with
    dat := { st.dat with
      train_id := upd st.dat.train_id (st.current_click + 1) (b 15)
      species := upd st.dat.species (st.current_click + 1)
        (getSpeciesFromCode ((b 14 >>> 2) &&& 3) ext)
      quality_level := upd st.dat.quality_level (st.current_click + 1) (b 14 &&& 3)
      echo := upd st.dat.echo (st.current_click + 1)
        (if b 14 &&& 32 = 32 then true else false) } }

/-- The `buf[0] == 250` branch of `getFPODData`: waveform chunk for the
next click; on the first such record, set `has_wav[current_click+1]`
and open a new series keyed `current_click + 2`. -/
def fpodWav (st : FPODLoop) (buf : List Nat) : FPODLoop :=
  let st1 :=
    if st.dat.has_wav (st.current_click + 1) ≠ true then
      { st with
        dat := { st.dat with
          has_wav := upd st.dat.has_wav (st.current_click + 1) true
          wav_data := st.dat.wav_data ++ [⟨st.current_click + 2, []⟩] } }
    else st
  { st1 with
    dat := { st1.dat with
      wav_data := updateLast
        (fun w => { w with chunks := w.chunks ++ [wavChunkOf buf] })
        st1.dat.wav_data } }

/-- The `buf[0] == 254` branch of `getFPODData`: minute marker with
temperature and battery voltages. -/
def fpodMinute (pic_ver : Nat) (st : FPODLoop) (buf : List Nat) : FPODLoop :=
  let b := byteAt buf
  let bats :=
    if pic_ver < 28 ∧ b 11 = 0 ∧ b 13 ≠ 0 then (b 12, b 13) else (b 11, b 12)
  { st with
    current_min := st.current_min + 1
    dat := { st.dat with
      temp_deg_c := st.dat.temp_deg_c ++ [b 7]
      bat1 := st.dat.bat1 ++ [bats.1]
      bat2 := st.dat.bat2 ++ [bats.2] } }

/-- One iteration of the `getFPODData` read loop on a full block:
dispatch on the first byte (any other discriminant consumes the block
without producing a record). -/
def getFPODStep (ext : String) (pic_ver : Nat) (st : FPODLoop) (buf : List Nat) :
    FPODLoop :=
  if byteAt buf 0 < 184 then fpodClick st buf
  else if byteAt buf 0 = 249 then fpodTrain ext st buf
  else if byteAt buf 0 = 250 then fpodWav st buf
  else if byteAt buf 0 = 254 then fpodMinute pic_ver st buf
  else st

/-- `getFPODData` over the list of full blocks; the final
`current_click` is both stored in `dat.last_click` and returned. -/
def getFPODData (ext : String) (pic_ver : Nat) (blocks : List (List Nat)) : FPODLoop :=
  blocks.foldl (getFPODStep ext pic_ver) initFPOD

/-- Number of rows of the clicks table produced by `toList`: the
columns are truncated with `seq(0, last_click)` when
`last_click > -1`, and are empty otherwise. -/
def numClicks (last_click : Int) : Nat :=
  if last_click > -1 then (last_click + 1).toNat else 0

/-- Loop state of `getCPODData`: as for FPOD, plus the
consecutive-terminator counter `file_ends`. -/
structure CPODLoop where
  dat : FPODData := {}
  current_click : Int := -1
  current_min : Int := -1
  file_ends : Nat := 0

/-- Initial CPOD loop state. -/
def initCPOD : CPODLoop := {}

/-- The record dispatch of `getCPODData` on the block's last byte:
anything other than 254 is decoded as a click, 254 advances the minute
counter. -/
def cpodDecodeBlock (ext : String) (data_buf_size : Nat) (st : CPODLoop)
    (buf : List Nat) : CPODLoop :=
  let b := byteAt buf
  if b (data_buf_size - 1) ≠ 254 then
    let cc := st.current_click + 1
    { st with
      current_click := cc
      dat := { st.dat with
        min := upd st.dat.min cc st.current_min
        microsec := upd st.dat.microsec cc (microsecOf buf)
        ncyc := upd st.dat.ncyc cc (b 3)
        khz := upd st.dat.khz cc (b 5)
        amp_at_max := upd st.dat.amp_at_max cc (b 5)
        duration :=
          if b 5 > 0 then upd st.dat.duration cc ((b 3 : ℚ) / (b 5 : ℚ))
          else st.dat.duration
        train_id :=
          if ext = "CP3" then upd st.dat.train_id cc (b 39) else st.dat.train_id
        species :=
          if ext = "CP3" then
            upd st.dat.species cc (getSpeciesFromCode (b 36 >>> 3) ext)
          else st.dat.species
        quality_level :=
          if ext = "CP3" then upd st.dat.quality_level cc (b 36 &&& 3)
          else st.dat.quality_level } }
  else
    { st with current_min := st.current_min + 1 }

/-- One iteration of the `getCPODData` read loop on a full block:
returns the next state and whether the loop breaks (second consecutive
terminator block, `++file_ends == 2`).  The first terminator falls
through to the normal dispatch (the `continue` is commented out in the
source). -/
def cpodStep (ext : String) (data_buf_size : Nat) (st : CPODLoop) (buf : List Nat) :
    CPODLoop × Bool :=
  if eofBlock buf then
    if st.file_ends + 1 = 2 then (st, true)
    else (cpodDecodeBlock ext data_buf_size { st with file_ends := st.file_ends + 1 } buf,
          false)
  else (cpodDecodeBlock ext data_buf_size { st with file_ends := 0 } buf, false)

/-- The `getCPODData` read loop: on a break, the remaining blocks are
never read. -/
def runCPOD (ext : String) (data_buf_size : Nat) :
    List (List Nat) → CPODLoop → CPODLoop
  | [], st => st
  | buf :: rest, st =>
    let s := cpodStep ext data_buf_size st buf
    if s.2 then s.1 else runCPOD ext data_buf_size rest s.1

/-- `getCPODData` from the initial loop state. -/
def getCPODData (ext : String) (data_buf_size : Nat) (blocks : List (List Nat)) :
    CPODLoop :=
  runCPOD ext data_buf_size blocks initCPOD

/-- The value `getCPODData` stores in `dat.last_click` and returns:
`current_click - 1`. -/
def cpodReported (ext : String) (data_buf_size : Nat) (blocks : List (List Nat)) :
    Int :=
  (getCPODData ext data_buf_size blocks).current_click - 1

/-- A CPOD loop state that has just seen its first terminator block. -/
def cpodAfterOneEnd : CPODLoop := { file_ends := 1 }

/-- An all-255 (terminator) block of the given size. -/
def ffBlock (sz : Nat) : List Nat := List.replicate sz 255

/-- Sample FPOD minute-marker block: temperature byte 21, legacy
battery layout bytes (byte 11 = 0, byte 12 = 7, byte 13 = 5). -/
def sampleMinuteBlock : List Nat := [254, 0, 0, 0, 0, 0, 0, 21, 0, 0, 0, 0, 7, 5, 0, 0]

/-- Sample FPOD click block (all zero bytes, first byte 0 < 184). -/
def sampleClickBlock : List Nat := List.replicate 16 0

/-- A second, distinguishable sample FPOD click block. -/
def sampleClickBlock2 : List Nat := 1 :: List.replicate 15 2

/-- Sample FPOD train block: byte 14 = 46 (species bits 3, quality 2,
echo bit set), byte 15 = train id 77. -/
def sampleTrainBlock : List Nat := 249 :: (List.replicate 13 0 ++ [46, 77])

/-- Sample FPOD waveform block with pairwise distinct payload bytes. -/
def sampleWavBlock : List Nat := [250, 1, 2, 3, 4, 5, 6, 7, 8, 9, 10, 11, 12, 13, 14, 15]

/-- Sample FPOD click block whose byte 4 has low nibble 10. -/
def sampleIpiBlock : List Nat := [0, 0, 0, 0, 10] ++ List.replicate 11 0

/-- Sample CPOD click block (all zero bytes: not a terminator, last
byte not 254). -/
def sampleCPODClick : List Nat := List.replicate 40 0

theorem upd_self {α : Type} (f : Int → α) (i : Int) (v : α) : upd f i v i = v := by
  simp [upd]

theorem upd_ne {α : Type} (f : Int → α) (i j : Int) (v : α) (h : j ≠ i) :
    upd f i v j = f j := by
  simp [upd, h]

theorem updateLast_append {α : Type} (f : α → α) (l : List α) (x : α) :
    updateLast f (l ++ [x]) = l ++ [f x] := by
  induction l with
  | nil => rfl
  | cons y ys ih =>
      cases ys with
      | nil => rfl
      | cons z zs =>
          show y :: updateLast f ((z :: zs) ++ [x]) = y :: ((z :: zs) ++ [f x])
          rw [ih]

/-- C9: a field that ends exactly at the last byte of the buffer
(offset + size = buffer length, fully in bounds) yields 0 rather than
the bytes' big-endian value, because the bounds guard of
`constructInt` requires `offset + size` to be strictly less than the
buffer length. -/
theorem constructInt_exact_fit_zero (w : Nat) (buf : List Nat) (off sz : Nat)
    (h : off + sz = buf.length) : constructInt w buf off sz = 0 := by
  unfold constructInt
  rw [if_neg (by omega)]

theorem constructInt_exact_fit_zero_instance : constructInt 32 [1, 2] 0 2 = 0 :=
  constructInt_exact_fit_zero 32 [1, 2] 0 2 rfl

/-- C6 (counterexample): reading the byte sequence `[0x01, 0x02]`
itself as a 2-byte field yields 0, not 258, because the strict bounds
guard rejects a field ending exactly at the buffer's last byte. -/
theorem constructInt_two_byte_buffer_zero :
    constructInt 32 [1, 2] 0 2 = 0 ∧ constructInt 32 [1, 2] 0 2 ≠ 258 := by
  constructor <;> decide

/-- C6 (amended): big-endian construction shifts left 8 bits and ORs in
each successive byte, most-significant byte first: the bytes 0x01,0x02
read as a 2-byte field lying strictly inside a buffer yield 258; and
whenever `offset + size` is not strictly below the buffer length (in
particular whenever it exceeds it) the result is 0. -/
theorem constructInt_bigendian :
    (∀ (buf : List Nat) (off : Nat), off + 2 < buf.length →
        byteAt buf off = 1 → byteAt buf (off + 1) = 2 →
        constructInt 32 buf off 2 = 258)
    ∧ (∀ (w : Nat) (buf : List Nat) (off sz : Nat), buf.length ≤ off + sz →
        constructInt w buf off sz = 0) := by
  constructor
  · intro buf off hlt h1 h2
    unfold constructInt
    rw [if_pos hlt]
    show ((((0 <<< 8) % 2 ^ 32) ||| (byteAt buf (off + 0) % 2 ^ 32)) <<< 8) % 2 ^ 32 |||
        (byteAt buf (off + 1) % 2 ^ 32) = 258
    rw [Nat.add_zero, h1, h2]
    decide
  · intro w buf off sz h
    unfold constructInt
    rw [if_neg (by omega)]

theorem constructInt_bigendian_instance :
    constructInt 32 [1, 2, 9] 0 2 = 258 ∧ constructInt 32 [5] 0 2 = 0 :=
  ⟨constructInt_bigendian.1 [1, 2, 9] 0 (by decide) rfl rfl,
   constructInt_bigendian.2 32 [5] 0 2 (by decide)⟩

/-- C7: species lookup: for the CP3 variant, codes 0,1 map to NBHF,
2,3 to OtherCet, 4,5 to Unclassed, 6,7 to Sonar; for FP3, 0 to NBHF,
1 to OtherCet, 2 to Unclassed, 3 to Sonar; any code outside the valid
range of its family yields the empty label. -/
theorem species_code_tables :
    getSpeciesFromCode 0 "CP3" = "NBHF" ∧ getSpeciesFromCode 1 "CP3" = "NBHF"
    ∧ getSpeciesFromCode 2 "CP3" = "OtherCet" ∧ getSpeciesFromCode 3 "CP3" = "OtherCet"
    ∧ getSpeciesFromCode 4 "CP3" = "Unclassed" ∧ getSpeciesFromCode 5 "CP3" = "Unclassed"
    ∧ getSpeciesFromCode 6 "CP3" = "Sonar" ∧ getSpeciesFromCode 7 "CP3" = "Sonar"
    ∧ getSpeciesFromCode 0 "FP3" = "NBHF" ∧ getSpeciesFromCode 1 "FP3" = "OtherCet"
    ∧ getSpeciesFromCode 2 "FP3" = "Unclassed" ∧ getSpeciesFromCode 3 "FP3" = "Sonar"
    ∧ (∀ code : Nat, 7 < code → getSpeciesFromCode code "CP3" = "")
    ∧ (∀ code : Nat, 3 < code → getSpeciesFromCode code "FP3" = "") := by
  refine ⟨by decide, by decide, by decide, by decide, by decide, by decide, by decide,
    by decide, by decide, by decide, by decide, by decide, ?_, ?_⟩
  · intro code h
    unfold getSpeciesFromCode
    rw [if_neg (fun hc => absurd hc.2 (by omega)),
        if_neg (fun hc => absurd hc.2 (by omega))]
  · intro code h
    unfold getSpeciesFromCode
    rw [if_neg (fun hc => absurd hc.1 (by decide)),
        if_neg (fun hc => absurd hc.2 (by omega))]

theorem species_code_tables_instance :
    getSpeciesFromCode 8 "CP3" = "" ∧ getSpeciesFromCode 4 "FP3" = "" :=
  ⟨species_code_tables.2.2.2.2.2.2.2.2.2.2.2.2.1 8 (by omega),
   species_code_tables.2.2.2.2.2.2.2.2.2.2.2.2.2 4 (by omega)⟩

/-- C4: flattening the waveform data traverses each click's chunks in
reverse insertion order (the last-appended chunk contributes its rows
first) while each chunk's internal order of 7 (IPI, SPL) pairs is
preserved, independently of the surrounding series. -/
theorem wav_flatten_reverse_insertion (pre post : List WavData) (k : Int)
    (cs : List WavDataChunk) (c : WavDataChunk) :
    wavToList (pre ++ ⟨k, cs ++ [c]⟩ :: post)
      = wavToList pre ++ chunkRows k c ++ wavToList [⟨k, cs⟩] ++ wavToList post := by
  simp [wavToList, List.reverse_append, List.append_assoc]

theorem getFPODStep_click {ext : String} {pv : Nat} {st : FPODLoop} {buf : List Nat}
    (h : byteAt buf 0 < 184) : getFPODStep ext pv st buf = fpodClick st buf := by
  unfold getFPODStep
  rw [if_pos h]

theorem getFPODStep_train {ext : String} {pv : Nat} {st : FPODLoop} {buf : List Nat}
    (h : byteAt buf 0 = 249) : getFPODStep ext pv st buf = fpodTrain ext st buf := by
  unfold getFPODStep
  rw [h, if_neg (by decide), if_pos rfl]

theorem getFPODStep_wav {ext : String} {pv : Nat} {st : FPODLoop} {buf : List Nat}
    (h : byteAt buf 0 = 250) : getFPODStep ext pv st buf = fpodWav st buf := by
  unfold getFPODStep
  rw [h, if_neg (by decide), if_neg (by decide), if_pos rfl]

theorem getFPODStep_minute {ext : String} {pv : Nat} {st : FPODLoop} {buf : List Nat}
    (h : byteAt buf 0 = 254) : getFPODStep ext pv st buf = fpodMinute pv st buf := by
  unfold getFPODStep
  rw [h, if_neg (by decide), if_neg (by decide), if_neg (by decide), if_pos rfl]

/-- C3: for every FPOD click block, the decoded IPI-range class is the
three-way branch on the low nibble of byte 4: nibble 15 gives 65, bit
3 set gives `((nibble &&& 7) + 1) <<< 3`, otherwise `nibble &&& 7`; in
particular nibble 15 gives 65, nibble 10 gives 24 and nibble 3 gives
3. -/
theorem fpod_ipi_range_three_way (ext : String) (pv : Nat) (st : FPODLoop)
    (buf : List Nat) (h : byteAt buf 0 < 184) :
    ((getFPODStep ext pv st buf).dat.clk_ipi_range (getFPODStep ext pv st buf).current_click
        = (if byteAt buf 4 &&& 15 = 15 then 65
           else if (byteAt buf 4 &&& 15) &&& 8 = 8 then
             (((byteAt buf 4 &&& 15) &&& 7) + 1) <<< 3
           else (byteAt buf 4 &&& 15) &&& 7))
    ∧ (byteAt buf 4 &&& 15 = 15 →
        (getFPODStep ext pv st buf).dat.clk_ipi_range
          (getFPODStep ext pv st buf).current_click = 65)
    ∧ (byteAt buf 4 &&& 15 = 10 →
        (getFPODStep ext pv st buf).dat.clk_ipi_range
          (getFPODStep ext pv st buf).current_click = 24)
    ∧ (byteAt buf 4 &&& 15 = 3 →
        (getFPODStep ext pv st buf).dat.clk_ipi_range
          (getFPODStep ext pv st buf).current_click = 3) := by
  have e8 : (byteAt buf 4 &&& 15) &&& 8 = byteAt buf 4 &&& 8 := by
    rw [Nat.and_assoc, show (15 &&& 8 : Nat) = 8 by decide]
  have e7 : (byteAt buf 4 &&& 15) &&& 7 = byteAt buf 4 &&& 7 := by
    rw [Nat.and_assoc, show (15 &&& 7 : Nat) = 7 by decide]
  have hval : (getFPODStep ext pv st buf).dat.clk_ipi_range
      (getFPODStep ext pv st buf).current_click
        = (if byteAt buf 4 &&& 15 = 15 then 65
           else if (byteAt buf 4 &&& 15) &&& 8 = 8 then
             (((byteAt buf 4 &&& 15) &&& 7) + 1) <<< 3
           else (byteAt buf 4 &&& 15) &&& 7) := by
    rw [getFPODStep_click h, e8, e7]
    simp [fpodClick, upd_self]
  refine ⟨hval, fun h15 => ?_, fun h10 => ?_, fun h3 => ?_⟩
  · rw [hval, h15]
    decide
  · rw [hval, h10]
    decide
  · rw [hval, h3]
    decide

theorem fpod_ipi_range_three_way_instance :
    ((getFPODStep "FP3" 0 initFPOD sampleIpiBlock).dat.clk_ipi_range
        (getFPODStep "FP3" 0 initFPOD sampleIpiBlock).current_click
        = (if byteAt sampleIpiBlock 4 &&& 15 = 15 then 65
           else if (byteAt sampleIpiBlock 4 &&& 15) &&& 8 = 8 then
             (((byteAt sampleIpiBlock 4 &&& 15) &&& 7) + 1) <<< 3
           else (byteAt sampleIpiBlock 4 &&& 15) &&& 7))
    ∧ (byteAt sampleIpiBlock 4 &&& 15 = 15 →
        (getFPODStep "FP3" 0 initFPOD sampleIpiBlock).dat.clk_ipi_range
          (getFPODStep "FP3" 0 initFPOD sampleIpiBlock).current_click = 65)
    ∧ (byteAt sampleIpiBlock 4 &&& 15 = 10 →
        (getFPODStep "FP3" 0 initFPOD sampleIpiBlock).dat.clk_ipi_range
          (getFPODStep "FP3" 0 initFPOD sampleIpiBlock).current_click = 24)
    ∧ (byteAt sampleIpiBlock 4 &&& 15 = 3 →
        (getFPODStep "FP3" 0 initFPOD sampleIpiBlock).dat.clk_ipi_range
          (getFPODStep "FP3" 0 initFPOD sampleIpiBlock).current_click = 3) :=
  fpod_ipi_range_three_way "FP3" 0 initFPOD sampleIpiBlock (by decide)

/-- C5 (counterexample): for the waveform block
`[250, 1, 2, ..., 15]` the extracted chunk's SPL (amplitude) values
are the bytes at offsets 14, 12, ..., 2 — not the bytes at offsets
12, 10, ..., 0 that the claimed pairing (13,12) down to (1,0) would
produce. -/
theorem fpod_wav_offsets_counterexample :
    (getFPODStep "FP3" 0 initFPOD sampleWavBlock).dat.wav_data
      = [⟨1, [⟨[13, 11, 9, 7, 5, 3, 1], [14, 12, 10, 8, 6, 4, 2]⟩]⟩]
    ∧ ([14, 12, 10, 8, 6, 4, 2] : List Nat) ≠ [12, 10, 8, 6, 4, 2, 250] := by
  constructor
  · decide
  · decide

/-- C5 (amended): for every FPOD waveform block (first byte 250), the
decoder extracts 7 (IPI, amplitude) pairs with IPI from byte offsets
13, 11, ..., 1 and amplitude from the following byte, offsets
14, 12, ..., 2 (descending, stepping by 2); it appends them as one
chunk, and on the first waveform block for the next click it sets that
click's `has_wav` flag and opens a new series keyed at current click
index + 2. -/
theorem fpod_wav_block_extraction (ext : String) (pv : Nat) (st : FPODLoop)
    (buf : List Nat) (h : byteAt buf 0 = 250) :
    wavChunkOf buf
      = ⟨[byteAt buf 13, byteAt buf 11, byteAt buf 9, byteAt buf 7, byteAt buf 5,
          byteAt buf 3, byteAt buf 1],
         [byteAt buf 14, byteAt buf 12, byteAt buf 10, byteAt buf 8, byteAt buf 6,
          byteAt buf 4, byteAt buf 2]⟩
    ∧ (st.dat.has_wav (st.current_click + 1) = false →
        (getFPODStep ext pv st buf).dat.has_wav (st.current_click + 1) = true
        ∧ (getFPODStep ext pv st buf).dat.wav_data
            = st.dat.wav_data ++ [⟨st.current_click + 2, [wavChunkOf buf]⟩]) := by
  refine ⟨rfl, fun hw => ?_⟩
  rw [getFPODStep_wav h]
  constructor
  · simp [fpodWav, hw, upd_self]
  · simp [fpodWav, hw, updateLast_append]

theorem fpod_wav_block_extraction_instance :
    wavChunkOf sampleWavBlock
      = ⟨[byteAt sampleWavBlock 13, byteAt sampleWavBlock 11, byteAt sampleWavBlock 9,
          byteAt sampleWavBlock 7, byteAt sampleWavBlock 5, byteAt sampleWavBlock 3,
          byteAt sampleWavBlock 1],
         [byteAt sampleWavBlock 14, byteAt sampleWavBlock 12, byteAt sampleWavBlock 10,
          byteAt sampleWavBlock 8, byteAt sampleWavBlock 6, byteAt sampleWavBlock 4,
          byteAt sampleWavBlock 2]⟩
    ∧ (initFPOD.dat.has_wav (initFPOD.current_click + 1) = false →
        (getFPODStep "FP3" 0 initFPOD sampleWavBlock).dat.has_wav
          (initFPOD.current_click + 1) = true
        ∧ (getFPODStep "FP3" 0 initFPOD sampleWavBlock).dat.wav_data
            = initFPOD.dat.wav_data
                ++ [⟨initFPOD.current_click + 2, [wavChunkOf sampleWavBlock]⟩]) :=
  fpod_wav_block_extraction "FP3" 0 initFPOD sampleWavBlock (by decide)

/-- C8: for every FPOD minute-marker block (first byte 254), the minute
index is advanced, the temperature is byte 7, and the battery voltages
are (byte 12, byte 13) when the processor version is below 28, byte 11
is 0 and byte 13 is nonzero, and (byte 11, byte 12) in every other
case. -/
theorem fpod_minute_marker_env (ext : String) (pv : Nat) (st : FPODLoop)
    (buf : List Nat) (h : byteAt buf 0 = 254) :
    (getFPODStep ext pv st buf).current_min = st.current_min + 1
    ∧ (getFPODStep ext pv st buf).dat.temp_deg_c = st.dat.temp_deg_c ++ [byteAt buf 7]
    ∧ ((pv < 28 ∧ byteAt buf 11 = 0 ∧ byteAt buf 13 ≠ 0) →
        (getFPODStep ext pv st buf).dat.bat1 = st.dat.bat1 ++ [byteAt buf 12]
        ∧ (getFPODStep ext pv st buf).dat.bat2 = st.dat.bat2 ++ [byteAt buf 13])
    ∧ (¬(pv < 28 ∧ byteAt buf 11 = 0 ∧ byteAt buf 13 ≠ 0) →
        (getFPODStep ext pv st buf).dat.bat1 = st.dat.bat1 ++ [byteAt buf 11]
        ∧ (getFPODStep ext pv st buf).dat.bat2 = st.dat.bat2 ++ [byteAt buf 12]) := by
  rw [getFPODStep_minute h]
  refine ⟨rfl, rfl, fun hc => ?_, fun hc => ?_⟩
  · constructor
    · simp [fpodMinute, if_pos hc]
    · simp [fpodMinute, if_pos hc]
  · constructor
    · simp [fpodMinute, if_neg hc]
    · simp [fpodMinute, if_neg hc]

theorem fpod_minute_marker_env_instance :
    (getFPODStep "FP3" 27 initFPOD sampleMinuteBlock).current_min
        = initFPOD.current_min + 1
    ∧ (getFPODStep "FP3" 27 initFPOD sampleMinuteBlock).dat.temp_deg_c
        = initFPOD.dat.temp_deg_c ++ [byteAt sampleMinuteBlock 7]
    ∧ ((27 < 28 ∧ byteAt sampleMinuteBlock 11 = 0 ∧ byteAt sampleMinuteBlock 13 ≠ 0) →
        (getFPODStep "FP3" 27 initFPOD sampleMinuteBlock).dat.bat1
            = initFPOD.dat.bat1 ++ [byteAt sampleMinuteBlock 12]
        ∧ (getFPODStep "FP3" 27 initFPOD sampleMinuteBlock).dat.bat2
            = initFPOD.dat.bat2 ++ [byteAt sampleMinuteBlock 13])
    ∧ (¬(27 < 28 ∧ byteAt sampleMinuteBlock 11 = 0 ∧ byteAt sampleMinuteBlock 13 ≠ 0) →
        (getFPODStep "FP3" 27 initFPOD sampleMinuteBlock).dat.bat1
            = initFPOD.dat.bat1 ++ [byteAt sampleMinuteBlock 11]
        ∧ (getFPODStep "FP3" 27 initFPOD sampleMinuteBlock).dat.bat2
            = initFPOD.dat.bat2 ++ [byteAt sampleMinuteBlock 12]) :=
  fpod_minute_marker_env "FP3" 27 initFPOD sampleMinuteBlock (by decide)

/-- C2: decoding an FPOD block sequence of one minute marker, one
click, one train block and a second click yields exactly 2 clicks; the
train annotation (train id byte 15, species from bits 2-3 of byte 14,
quality from bits 0-1 of byte 14, echo from bit 5 of byte 14) lands on
the click at index current+1, i.e. the second click; and the minute
index is incremented exactly once, before the first click (both clicks
carry minute 0). -/
theorem fpod_minimal_file (pv : Nat) (m c1 t c2 : List Nat)
    (hm : byteAt m 0 = 254) (hc1 : byteAt c1 0 < 184)
    (ht : byteAt t 0 = 249) (hc2 : byteAt c2 0 < 184)
    (hlm : m.length = 16) (hlc1 : c1.length = 16)
    (hlt : t.length = 16) (hlc2 : c2.length = 16) :
    (getFPODData "FP3" pv [m, c1, t, c2]).current_click = 1
    ∧ numClicks (getFPODData "FP3" pv [m, c1, t, c2]).current_click = 2
    ∧ (getFPODData "FP3" pv [m, c1, t, c2]).dat.train_id 1 = byteAt t 15
    ∧ (getFPODData "FP3" pv [m, c1, t, c2]).dat.species 1
        = getSpeciesFromCode ((byteAt t 14 >>> 2) &&& 3) "FP3"
    ∧ (getFPODData "FP3" pv [m, c1, t, c2]).dat.quality_level 1 = byteAt t 14 &&& 3
    ∧ (getFPODData "FP3" pv [m, c1, t, c2]).dat.echo 1
        = (if byteAt t 14 &&& 32 = 32 then true else false)
    ∧ (getFPODData "FP3" pv [m, c1, t, c2]).current_min = 0
    ∧ (getFPODData "FP3" pv [m, c1, t, c2]).dat.min 0 = 0
    ∧ (getFPODData "FP3" pv [m, c1, t, c2]).dat.min 1 = 0 := by
  have hrun : getFPODData "FP3" pv [m, c1, t, c2]
      = fpodClick (fpodTrain "FP3" (fpodClick (fpodMinute pv initFPOD m) c1) t) c2 := by
    simp only [getFPODData, List.foldl]
    rw [getFPODStep_minute hm, getFPODStep_click hc1, getFPODStep_train ht,
      getFPODStep_click hc2]
  rw [hrun]
  refine ⟨rfl, ?_, ?_, ?_, ?_, ?_, rfl, ?_, ?_⟩
  · show numClicks 1 = 2
    decide
  · simp [fpodClick, fpodTrain, fpodMinute, initFPOD, upd]
  · simp [fpodClick, fpodTrain, fpodMinute, initFPOD, upd]
  · simp [fpodClick, fpodTrain, fpodMinute, initFPOD, upd]
  · simp [fpodClick, fpodTrain, fpodMinute, initFPOD, upd]
  · simp [fpodClick, fpodTrain, fpodMinute, initFPOD, upd]
  · simp [fpodClick, fpodTrain, fpodMinute, initFPOD, upd]

theorem fpod_minimal_file_instance :
    (getFPODData "FP3" 30
        [sampleMinuteBlock, sampleClickBlock, sampleTrainBlock, sampleClickBlock2]).current_click = 1
    ∧ numClicks (getFPODData "FP3" 30
        [sampleMinuteBlock, sampleClickBlock, sampleTrainBlock, sampleClickBlock2]).current_click = 2
    ∧ (getFPODData "FP3" 30
        [sampleMinuteBlock, sampleClickBlock, sampleTrainBlock, sampleClickBlock2]).dat.train_id 1
        = byteAt sampleTrainBlock 15
    ∧ (getFPODData "FP3" 30
        [sampleMinuteBlock, sampleClickBlock, sampleTrainBlock, sampleClickBlock2]).dat.species 1
        = getSpeciesFromCode ((byteAt sampleTrainBlock 14 >>> 2) &&& 3) "FP3"
    ∧ (getFPODData "FP3" 30
        [sampleMinuteBlock, sampleClickBlock, sampleTrainBlock, sampleClickBlock2]).dat.quality_level 1
        = byteAt sampleTrainBlock 14 &&& 3
    ∧ (getFPODData "FP3" 30
        [sampleMinuteBlock, sampleClickBlock, sampleTrainBlock, sampleClickBlock2]).dat.echo 1
        = (if byteAt sampleTrainBlock 14 &&& 32 = 32 then true else false)
    ∧ (getFPODData "FP3" 30
        [sampleMinuteBlock, sampleClickBlock, sampleTrainBlock, sampleClickBlock2]).current_min = 0
    ∧ (getFPODData "FP3" 30
        [sampleMinuteBlock, sampleClickBlock, sampleTrainBlock, sampleClickBlock2]).dat.min 0 = 0
    ∧ (getFPODData "FP3" 30
        [sampleMinuteBlock, sampleClickBlock, sampleTrainBlock, sampleClickBlock2]).dat.min 1 = 0 :=
  fpod_minimal_file 30 sampleMinuteBlock sampleClickBlock sampleTrainBlock
    sampleClickBlock2 (by decide) (by decide) (by decide) (by decide)
    (by decide) (by decide) (by decide) (by decide)

theorem cpodDecodeBlock_file_ends (ext : String) (sz : Nat) (st : CPODLoop)
    (buf : List Nat) : (cpodDecodeBlock ext sz st buf).file_ends = st.file_ends := by
  simp only [cpodDecodeBlock]
  split <;> rfl

theorem cpodDecodeBlock_click (ext : String) (sz : Nat) (st : CPODLoop)
    (buf : List Nat) (h : byteAt buf (sz - 1) ≠ 254) :
    (cpodDecodeBlock ext sz st buf).current_click = st.current_click + 1
    ∧ (cpodDecodeBlock ext sz st buf).dat.min (st.current_click + 1) = st.current_min
    ∧ (cpodDecodeBlock ext sz st buf).dat.ncyc (st.current_click + 1) = byteAt buf 3
    ∧ (cpodDecodeBlock ext sz st buf).dat.khz (st.current_click + 1) = byteAt buf 5
    ∧ (cpodDecodeBlock ext sz st buf).dat.amp_at_max (st.current_click + 1)
        = byteAt buf 5 := by
  simp only [cpodDecodeBlock]
  rw [if_pos h]
  exact ⟨rfl, upd_self _ _ _, upd_self _ _ _, upd_self _ _ _, upd_self _ _ _⟩

theorem runCPOD_not_eof {ext : String} {sz : Nat} {buf : List Nat}
    (rest : List (List Nat)) (st : CPODLoop) (h : eofBlock buf = false) :
    runCPOD ext sz (buf :: rest) st
      = runCPOD ext sz rest (cpodDecodeBlock ext sz { st with file_ends := 0 } buf) := by
  simp [runCPOD, cpodStep, h]

theorem runCPOD_eof_zero {ext : String} {sz : Nat} {buf : List Nat}
    (rest : List (List Nat)) (st : CPODLoop) (h : eofBlock buf = true)
    (hf : st.file_ends = 0) :
    runCPOD ext sz (buf :: rest) st
      = runCPOD ext sz rest (cpodDecodeBlock ext sz { st with file_ends := 1 } buf) := by
  simp [runCPOD, cpodStep, h, hf]

theorem runCPOD_eof_one {ext : String} {sz : Nat} {buf : List Nat}
    (rest : List (List Nat)) (st : CPODLoop) (h : eofBlock buf = true)
    (hf : st.file_ends = 1) :
    runCPOD ext sz (buf :: rest) st = st := by
  simp [runCPOD, cpodStep, h, hf]

theorem eofBlock_ffBlock (sz : Nat) : eofBlock (ffBlock sz) = true := by
  simp [eofBlock, ffBlock]

theorem byteAt_ffBlock_last (sz : Nat) (h : 0 < sz) :
    byteAt (ffBlock sz) (sz - 1) = 255 := by
  unfold byteAt ffBlock
  rw [List.getD_eq_getElem?_getD, List.getElem?_replicate_of_lt (by omega)]
  rfl

/-- C1: for a CPOD-family input whose data region is one non-terminator
click block followed by two all-255 terminator blocks, decoding stops
after the second terminator block without reading any further input,
and the resulting dataset contains exactly 1 click; in general the
decoder reports the final click count as the last decoded click index
(`current_click`) minus 1. -/
theorem cpod_minimal_file :
    (∀ (ext : String) (sz : Nat) (c : List Nat) (rest : List (List Nat)),
        0 < sz → c.length = sz → eofBlock c = false → byteAt c (sz - 1) ≠ 254 →
        getCPODData ext sz (c :: ffBlock sz :: ffBlock sz :: rest)
          = getCPODData ext sz [c, ffBlock sz, ffBlock sz]
        ∧ numClicks (cpodReported ext sz (c :: ffBlock sz :: ffBlock sz :: rest)) = 1)
    ∧ (∀ (ext : String) (sz : Nat) (blocks : List (List Nat)),
        cpodReported ext sz blocks
          = (getCPODData ext sz blocks).current_click - 1) := by
  constructor
  · intro ext sz c rest hsz hlen heofc hlast
    have hff := eofBlock_ffBlock sz
    have hffl := byteAt_ffBlock_last sz hsz
    have hffne : byteAt (ffBlock sz) (sz - 1) ≠ 254 := by
      rw [hffl]
      decide
    have hfe1 : (cpodDecodeBlock ext sz { initCPOD with file_ends := 0 } c).file_ends
        = 0 := cpodDecodeBlock_file_ends ext sz _ c
    have hfe2 : (cpodDecodeBlock ext sz
        { cpodDecodeBlock ext sz { initCPOD with file_ends := 0 } c with
          file_ends := 1 } (ffBlock sz)).file_ends = 1 :=
      cpodDecodeBlock_file_ends ext sz _ (ffBlock sz)
    have e1 : ∀ tail, runCPOD ext sz (c :: ffBlock sz :: ffBlock sz :: tail) initCPOD
        = cpodDecodeBlock ext sz
            { cpodDecodeBlock ext sz { initCPOD with file_ends := 0 } c with
              file_ends := 1 } (ffBlock sz) := by
      intro tail
      rw [runCPOD_not_eof _ _ heofc, runCPOD_eof_zero _ _ hff hfe1,
        runCPOD_eof_one _ _ hff hfe2]
    have hcc1 : (cpodDecodeBlock ext sz { initCPOD with file_ends := 0 } c).current_click
        = 0 :=
      (cpodDecodeBlock_click ext sz _ c hlast).1.trans (by decide)
    have hcc2 : (cpodDecodeBlock ext sz
        { cpodDecodeBlock ext sz { initCPOD with file_ends := 0 } c with
          file_ends := 1 } (ffBlock sz)).current_click = 1 :=
      (cpodDecodeBlock_click ext sz _ (ffBlock sz) hffne).1.trans
        (by show (cpodDecodeBlock ext sz { initCPOD with file_ends := 0 } c).current_click
              + 1 = 1
            rw [hcc1]
            decide)
    constructor
    · unfold getCPODData
      rw [e1 rest, e1 []]
    · unfold cpodReported getCPODData
      rw [e1 rest, hcc2]
      decide
  · intro ext sz blocks
    rfl

theorem cpod_minimal_file_instance :
    getCPODData "CP3" 40 (sampleCPODClick :: ffBlock 40 :: ffBlock 40 :: [[7]])
      = getCPODData "CP3" 40 [sampleCPODClick, ffBlock 40, ffBlock 40]
    ∧ numClicks
        (cpodReported "CP3" 40 (sampleCPODClick :: ffBlock 40 :: ffBlock 40 :: [[7]]))
        = 1 :=
  cpod_minimal_file.1 "CP3" 40 sampleCPODClick [[7]] (by decide) (by decide)
    (by decide) (by decide)

/-- C10: a CPOD terminator block (at least block size - 5 bytes equal
to 255) whose last byte is 255, met while the consecutive-terminator
counter is 0, is not skipped: since its last byte differs from 254 it
is decoded as a click record, incrementing the click index and writing
a click row from the 255-valued bytes; only when the counter already
stands at 1 (second consecutive terminator) does the step stop
decoding without producing a record. -/
theorem cpod_single_terminator_decoded_as_click (ext : String) (sz : Nat)
    (buf : List Nat) (st st' : CPODLoop) (hlen : buf.length = sz)
    (heof : eofBlock buf = true) (hlast : byteAt buf (sz - 1) = 255) :
    (st.file_ends = 0 →
        cpodStep ext sz st buf
          = (cpodDecodeBlock ext sz { st with file_ends := 1 } buf, false)
        ∧ (cpodDecodeBlock ext sz { st with file_ends := 1 } buf).current_click
            = st.current_click + 1
        ∧ (cpodDecodeBlock ext sz { st with file_ends := 1 } buf).dat.min
            (st.current_click + 1) = st.current_min
        ∧ (cpodDecodeBlock ext sz { st with file_ends := 1 } buf).dat.ncyc
            (st.current_click + 1) = byteAt buf 3
        ∧ (cpodDecodeBlock ext sz { st with file_ends := 1 } buf).dat.khz
            (st.current_click + 1) = byteAt buf 5
        ∧ (cpodDecodeBlock ext sz { st with file_ends := 1 } buf).dat.amp_at_max
            (st.current_click + 1) = byteAt buf 5)
    ∧ (st'.file_ends = 1 → cpodStep ext sz st' buf = (st', true)) := by
  have hne : byteAt buf (sz - 1) ≠ 254 := by
    rw [hlast]
    decide
  constructor
  · intro hf
    have hdec := cpodDecodeBlock_click ext sz { st with file_ends := 1 } buf hne
    exact ⟨by simp [cpodStep, heof, hf], hdec.1, hdec.2.1, hdec.2.2.1,
      hdec.2.2.2.1, hdec.2.2.2.2⟩
  · intro hf
    simp [cpodStep, heof, hf]

theorem cpod_single_terminator_decoded_as_click_instance :
    (initCPOD.file_ends = 0 →
        cpodStep "CP3" 40 initCPOD (ffBlock 40)
          = (cpodDecodeBlock "CP3" 40 { initCPOD with file_ends := 1 } (ffBlock 40),
             false)
        ∧ (cpodDecodeBlock "CP3" 40 { initCPOD with file_ends := 1 }
            (ffBlock 40)).current_click = initCPOD.current_click + 1
        ∧ (cpodDecodeBlock "CP3" 40 { initCPOD with file_ends := 1 }
            (ffBlock 40)).dat.min (initCPOD.current_click + 1) = initCPOD.current_min
        ∧ (cpodDecodeBlock "CP3" 40 { initCPOD with file_ends := 1 }
            (ffBlock 40)).dat.ncyc (initCPOD.current_click + 1)
            = byteAt (ffBlock 40) 3
        ∧ (cpodDecodeBlock "CP3" 40 { initCPOD with file_ends := 1 }
            (ffBlock 40)).dat.khz (initCPOD.current_click + 1)
            = byteAt (ffBlock 40) 5
        ∧ (cpodDecodeBlock "CP3" 40 { initCPOD with file_ends := 1 }
            (ffBlock 40)).dat.amp_at_max (initCPOD.current_click + 1)
            = byteAt (ffBlock 40) 5)
    ∧ (cpodAfterOneEnd.file_ends = 1 →
        cpodStep "CP3" 40 cpodAfterOneEnd (ffBlock 40) = (cpodAfterOneEnd, true)) :=
  cpod_single_terminator_decoded_as_click "CP3" 40 (ffBlock 40) initCPOD
    cpodAfterOneEnd (by decide) (by decide) (by decide)

end ReadFPOD
